import Mathlib

/-!
Shallow embedding of the token cache and HTTP/NATS token-bridge logic of
the nats-go-examples repository: `internal/cache` (TokenCache),
`pkg/models` (TokenRequest / TokenResponse, generateID / randomString),
and `cmd/brain-app/main.go` (handleTokenRequest).

Time is modelled as `Nat` nanoseconds (Go `time.Time` / `time.Duration`).
Go maps with string keys are modelled as functions `String → Option _`.
-/

namespace NatsGo

/-- cacheItem mirrors `internal/cache.cacheItem`: the stored token string
and its absolute expiration instant. Note the item stores only the token;
no token type or other metadata is retained. -/
structure cacheItem where
  token : String
  expiration : Nat
deriving Repr, DecidableEq

/-- TokenCache models the `items map[string]*cacheItem` of
`internal/cache.TokenCache` as a function from ClientID to an optional
entry (map keys are unique). -/
def TokenCache : Type := String → Option cacheItem

/-- TokenCache.empty models `make(map[string]*cacheItem)`: the fresh cache
produced by `NewTokenCache` (and by `Clear`). -/
def TokenCache.empty : TokenCache := fun _ => none

/-- TokenCache.Set mirrors `(*TokenCache).Set`: insert or overwrite the
entry for `clientID` with expiration `now + ttl`
(`time.Now().Add(ttl)`). -/
def TokenCache.Set (c : TokenCache) (now : Nat) (clientID token : String)
    (ttl : Nat) : TokenCache :=
  fun k => if k = clientID then some ⟨token, now + ttl⟩ else c k

/-- TokenCache.Get mirrors `(*TokenCache).Get`: return `("", false)` when
the key is absent or `time.Now().After(item.expiration)` holds (strict
`expiration < now`), else the stored token with `true`. The Go code
performs no write in `Get`, so the embedding is a pure function of the
cache. -/
def TokenCache.Get (c : TokenCache) (now : Nat) (clientID : String) :
    String × Bool :=
  match c clientID with
  | none => ("", false)
  | some item => if item.expiration < now then ("", false) else (item.token, true)

/-- TokenCache.removeExpired mirrors `(*TokenCache).removeExpired`: delete
every entry with `item.expiration.Before(now)` (strict
`expiration < now`); all other entries are kept unchanged. -/
def TokenCache.removeExpired (c : TokenCache) (now : Nat) : TokenCache :=
  fun k =>
    match c k with
    | none => none
    | some item => if item.expiration < now then none else some item

/-- TokenCache.Delete mirrors `(*TokenCache).Delete`: remove one key. -/
def TokenCache.Delete (c : TokenCache) (clientID : String) : TokenCache :=
  fun k => if k = clientID then none else c k

/-- TokenCache.Clear mirrors `(*TokenCache).Clear`: replace the map with a
fresh empty one. -/
def TokenCache.Clear (_ : TokenCache) : TokenCache := fun _ => none

/-- charset is the 62-character alphabet of `pkg/models.randomString`. -/
def charset : String :=
  "abcdefghijklmnopqrstuvwxyzABCDEFGHIJKLMNOPQRSTUVWXYZ0123456789"

/-- randomString mirrors `pkg/models.randomString(length)`. Despite its
name the Go function is deterministic: each character is
`charset[time.Now().UnixNano() % int64(len(charset))]`. Successive
`time.Now()` readings are modelled by `clock : Nat → Nat` (sample index to
UnixNano value). -/
def randomString (length : Nat) (clock : Nat → Nat) : String :=
  String.mk ((List.range length).map fun i =>
    charset.data.getD (clock i % charset.length) 'a')

/-- formatTimestamp models the Go stdlib call
`time.Now().Format("20060102150405.000")` used by `generateID`: the layout
prints calendar date and time down to millisecond precision, i.e. it is an
injective function of the instant truncated to milliseconds. The calendar
rendering itself lives in the external stdlib, so it is represented here
by the decimal millisecond count of the instant, which preserves exactly
that injectivity-up-to-milliseconds. -/
def formatTimestamp (nanos : Nat) : String := toString (nanos / 1000000)

/-- generateID mirrors `pkg/models.generateID`: the formatted current time,
a dash, then `randomString(8)`. One `time.Now()` reading feeds the format
(sample 0) and the eight `randomString` iterations read samples 1..8. -/
def generateID (clock : Nat → Nat) : String :=
  formatTimestamp (clock 0) ++ "-" ++ randomString 8 (fun i => clock (1 + i))

/-- TokenRequest mirrors `pkg/models.TokenRequest`. -/
structure TokenRequest where
  requestID : String
  clientID : String
  clientSecret : String
  timestamp : Nat
deriving Repr, DecidableEq

/-- TokenResponse mirrors `pkg/models.TokenResponse`; `error = ""` plays
the role of the absent optional `Error` field. -/
structure TokenResponse where
  requestID : String
  accessToken : String
  tokenType : String
  expiresIn : Int
  error : String
  timestamp : Nat
deriving Repr, DecidableEq

/-- NewTokenRequest mirrors `pkg/models.NewTokenRequest`: `generateID`
consumes clock samples 0..8 and the `Timestamp: time.Now()` field reads
sample 9. -/
def NewTokenRequest (clientID clientSecret : String) (clock : Nat → Nat) :
    TokenRequest :=
  { requestID := generateID clock
    clientID := clientID
    clientSecret := clientSecret
    timestamp := clock 9 }

/-- twoConsecutiveRequestIDs models two back-to-back calls of
`NewTokenRequest` in one process: the first call consumes clock samples
0..9, the second the next ten samples. -/
def twoConsecutiveRequestIDs (clientID clientSecret : String)
    (clock : Nat → Nat) : String × String :=
  ((NewTokenRequest clientID clientSecret clock).requestID,
   (NewTokenRequest clientID clientSecret (fun i => clock (10 + i))).requestID)

/-- ClientCredentialsRequest mirrors the brain-app's request body struct. -/
structure ClientCredentialsRequest where
  clientID : String
  clientSecret : String
deriving Repr, DecidableEq

/-- Body distinguishes the two body encoders used by the brain-app:
`http.Error` writes a plain-text line, while the 200 responses are encoded
with `json.NewEncoder(w).Encode(map[string]string)`. -/
inductive Body where
  | plainText (s : String)
  | jsonObject (fields : List (String × String))
deriving Repr, DecidableEq

/-- Response is an HTTP status code plus body. -/
structure Response where
  status : Nat
  body : Body
deriving Repr, DecidableEq

/-- httpError mirrors Go's `http.Error(w, msg, code)`: a plain-text body
consisting of the message followed by a newline. -/
def httpError (msg : String) (code : Nat) : Response :=
  ⟨code, .plainText (msg ++ "\n")⟩

/-- ParseResult captures the outcome of `io.ReadAll` + `json.Unmarshal` on
the request body in `handleTokenRequest`. -/
inductive ParseResult where
  | readError
  | malformed
  | ok (creds : ClientCredentialsRequest)
deriving Repr, DecidableEq

/-- UpstreamResult captures what the marshal + `natsConn.Request` +
unmarshal sequence of `handleTokenRequest` produced: `json.Marshal`
failure, `nats.ErrTimeout`, another transport error, an unparseable reply,
or a decoded TokenResponse (whatever message the transport delivered on
this request's reply subject, its RequestID field included). -/
inductive UpstreamResult where
  | marshalFailure
  | timeout
  | sendFailure
  | parseFailure
  | reply (resp : TokenResponse)
deriving Repr, DecidableEq

/-- HandlerResult is the observable outcome of one `handleTokenRequest`
call: the HTTP response, the cache state afterwards, and the outbound
TokenRequest if one was sent on the NATS subject (`none` when the handler
returned before `natsConn.Request`). -/
structure HandlerResult where
  response : Response
  cache : TokenCache
  sent : Option TokenRequest

/-- defaultTokenTTL mirrors `const defaultTokenTTL = 55 * time.Minute`
in nanoseconds. -/
def defaultTokenTTL : Nat := 55 * 60 * 1000000000

/-- handleTokenRequest mirrors `(*TokenServer).handleTokenRequest` in
`cmd/brain-app/main.go`: method check, `skip_cache` query parameter,
body read/parse, credential validation, cache lookup (unless skipped),
the bridge call, error mapping, cache populate (unless skipped), and the
success response. `clock` feeds `models.NewTokenRequest`. -/
def handleTokenRequest (method skipCacheParam : String) (parse : ParseResult)
    (upstream : UpstreamResult) (cache : TokenCache) (now : Nat)
    (clock : Nat → Nat) : HandlerResult :=
  if method != "POST" then
    ⟨httpError "Method not allowed" 405, cache, none⟩
  else
    let skipCache := skipCacheParam == "1" || skipCacheParam == "true"
    match parse with
    | .readError => ⟨httpError "Failed to read request body" 400, cache, none⟩
    | .malformed => ⟨httpError "Invalid request format" 400, cache, none⟩
    | .ok creds =>
      if creds.clientID == "" || creds.clientSecret == "" then
        ⟨httpError "Client ID and Client Secret are required" 400, cache, none⟩
      else
        let cached := TokenCache.Get cache now creds.clientID
        if !skipCache && cached.2 then
          ⟨⟨200, .jsonObject [("access_token", cached.1), ("token_type", "Bearer"),
             ("source", "cache")]⟩, cache, none⟩
        else
          let tokenReq := NewTokenRequest creds.clientID creds.clientSecret clock
          match upstream with
          | .marshalFailure => ⟨httpError "Failed to process request" 500, cache, none⟩
          | .timeout => ⟨httpError "Request timed out" 504, cache, some tokenReq⟩
          | .sendFailure => ⟨httpError "Failed to process request" 500, cache, some tokenReq⟩
          | .parseFailure => ⟨httpError "Failed to process response" 500, cache, some tokenReq⟩
          | .reply resp =>
            if resp.error != "" then
              ⟨httpError resp.error 400, cache, some tokenReq⟩
            else
              let cache' := if !skipCache then
                  TokenCache.Set cache now creds.clientID resp.accessToken defaultTokenTTL
                else cache
              ⟨⟨200, .jsonObject [("access_token", resp.accessToken),
                 ("token_type", resp.tokenType), ("source", "idp")]⟩, cache', some tokenReq⟩

/-- specJsonErrorBody follows the spec's words, not the source: a body
that is a JSON object with a single string field named error. Used to
compare the spec's claimed 400-body shape with what `http.Error`
produces. -/
def specJsonErrorBody (b : Body) : Prop :=
  ∃ e : String, b = .jsonObject [("error", e)]

end NatsGo

namespace NatsGo

/-- Lookup after an overwrite of the same key, before or at expiry. -/
lemma Get_Set_self (c : TokenCache) (t0 ttl t : Nat) (k v : String)
    (h : t ≤ t0 + ttl) :
    TokenCache.Get (TokenCache.Set c t0 k v ttl) t k = (v, true) := by
  unfold TokenCache.Get TokenCache.Set
  simp [Nat.not_lt.mpr h]

/-- Lookup after an overwrite of the same key, strictly after expiry. -/
lemma Get_Set_self_expired (c : TokenCache) (t0 ttl t : Nat) (k v : String)
    (h : t0 + ttl < t) :
    TokenCache.Get (TokenCache.Set c t0 k v ttl) t k = ("", false) := by
  unfold TokenCache.Get TokenCache.Set
  simp [h]

/-- Lookup of an absent key misses. -/
lemma Get_none (c : TokenCache) (now : Nat) (k : String) (h : c k = none) :
    TokenCache.Get c now k = ("", false) := by
  unfold TokenCache.Get
  simp [h]

end NatsGo

open NatsGo

/-- C1 counterexample: the claim says `Get` returns found=false for every
call at `t ≥ t0 + ttl`, but after `Set(k, v, 5)` at `t0 = 0` a `Get` at
`t = 5 = t0 + ttl` still returns `(v, true)`, because the code only treats
the entry as expired when `time.Now().After(expiration)` holds strictly. -/
theorem c1_counterexample :
    TokenCache.Get (TokenCache.Set TokenCache.empty 0 "k" "v" 5) 5 "k" = ("v", true) ∧
    0 + 5 ≤ 5 := by decide

/-- C1 amended: after `Set(k, v, ttl)` at `t0`, `Get(k)` returns `(v, true)`
for `t0 ≤ t ≤ t0 + ttl` and `("", false)` for `t > t0 + ttl`; and `Get`
misses on a key with no entry ( `Get` performs no write, so the pure
embedding records the absence of side effects on a miss). -/
theorem c1_cache_correctness (c : TokenCache) (k v : String) (t0 ttl t : Nat)
    (_h0 : t0 ≤ t) :
    (t ≤ t0 + ttl → TokenCache.Get (TokenCache.Set c t0 k v ttl) t k = (v, true)) ∧
    (t0 + ttl < t → TokenCache.Get (TokenCache.Set c t0 k v ttl) t k = ("", false)) ∧
    (∀ (c' : TokenCache) (now : Nat) (k' : String), c' k' = none →
      TokenCache.Get c' now k' = ("", false)) :=
  ⟨fun h => Get_Set_self c t0 ttl t k v h,
   fun h => Get_Set_self_expired c t0 ttl t k v h,
   fun c' now k' h => Get_none c' now k' h⟩

/-- C1 witness at concrete inputs. -/
theorem c1_cache_correctness_witness :
    TokenCache.Get (TokenCache.Set TokenCache.empty 0 "k" "v" 5) 3 "k" = ("v", true) ∧
    TokenCache.Get (TokenCache.Set TokenCache.empty 0 "k" "v" 5) 6 "k" = ("", false) :=
  ⟨(c1_cache_correctness TokenCache.empty "k" "v" 0 5 3 (by decide)).1 (by decide),
   (c1_cache_correctness TokenCache.empty "k" "v" 0 5 6 (by decide)).2.1 (by decide)⟩

/-- C7: a `removeExpired` pass at time `now` keeps exactly the prior
entries whose expiration has not passed (strictly before `now`), unchanged;
and for sweeps on a fixed positive interval `m` there is a sweep instant
`s` (a multiple of `m`) within one interval after any expiry instant `e`,
at which every entry expiring at `e` is removed, with no `Get` involved. -/
theorem c7_sweep (c : TokenCache) (now m e : Nat) (hm : 0 < m) :
    (∀ (k : String) (it : cacheItem),
      TokenCache.removeExpired c now k = some it ↔ (c k = some it ∧ now ≤ it.expiration)) ∧
    (∃ s : Nat, s % m = 0 ∧ e < s ∧ s ≤ e + m ∧
      ∀ (c' : TokenCache) (k : String) (it : cacheItem),
        c' k = some it → it.expiration = e → TokenCache.removeExpired c' s k = none) := by
  constructor
  · intro k it
    unfold TokenCache.removeExpired
    cases hck : c k with
    | none => simp
    | some it' =>
      by_cases hlt : it'.expiration < now
      · simp only [hlt, if_true]
        constructor
        · intro h
          exact absurd h (by simp)
        · rintro ⟨heq, hle⟩
          cases heq
          omega
      · simp only [hlt, if_false]
        constructor
        · rintro h
          cases h
          exact ⟨rfl, Nat.not_lt.mp hlt⟩
        · rintro ⟨heq, -⟩
          exact heq
  · refine ⟨(e / m + 1) * m, ?_, ?_, ?_, ?_⟩
    · exact Nat.mul_mod_left _ _
    · have hdm := Nat.div_add_mod e m
      have hmod := Nat.mod_lt e hm
      have hexp : (e / m + 1) * m = m * (e / m) + m := by ring
      omega
    · have hdm := Nat.div_add_mod e m
      have hmod := Nat.mod_lt e hm
      have hexp : (e / m + 1) * m = m * (e / m) + m := by ring
      omega
    · intro c' k it hck hexp
      have hs : e < (e / m + 1) * m := by
        have hdm := Nat.div_add_mod e m
        have hmod := Nat.mod_lt e hm
        have hexp2 : (e / m + 1) * m = m * (e / m) + m := by ring
        omega
      unfold TokenCache.removeExpired
      simp [hck, hexp, hs]

/-- C7 witness: sweeping at time 60 removes an entry that expired at 10. -/
theorem c7_sweep_witness :
    TokenCache.removeExpired (TokenCache.Set TokenCache.empty 0 "k" "v" 10) 60 "k" = none := by
  have h := (c7_sweep (TokenCache.Set TokenCache.empty 0 "k" "v" 10) 60 60 10 (by decide)).1
  cases hr : TokenCache.removeExpired (TokenCache.Set TokenCache.empty 0 "k" "v" 10) 60 "k" with
  | none => rfl
  | some it =>
    have h2 := (h "k" it).mp hr
    have h3 : it = ⟨"v", 10⟩ := by
      have := h2.1
      simp [TokenCache.Set] at this
      exact this.symm
    have h4 := h2.2
    rw [h3] at h4
    exact absurd h4 (by decide)

namespace NatsGo

/-- Reduction of the handler on a POST request that reaches the bridge:
credentials present and either the cache is skipped or the lookup misses. -/
lemma handle_bridge (v : String) (creds : ClientCredentialsRequest)
    (upstream : UpstreamResult) (cache : TokenCache) (now : Nat) (clock : Nat → Nat)
    (hid : (creds.clientID == "") = false) (hsec : (creds.clientSecret == "") = false)
    (hcond : (!(v == "1" || v == "true") && (TokenCache.Get cache now creds.clientID).2) = false) :
    handleTokenRequest "POST" v (.ok creds) upstream cache now clock =
      match upstream with
      | .marshalFailure => ⟨httpError "Failed to process request" 500, cache, none⟩
      | .timeout => ⟨httpError "Request timed out" 504, cache,
          some (NewTokenRequest creds.clientID creds.clientSecret clock)⟩
      | .sendFailure => ⟨httpError "Failed to process request" 500, cache,
          some (NewTokenRequest creds.clientID creds.clientSecret clock)⟩
      | .parseFailure => ⟨httpError "Failed to process response" 500, cache,
          some (NewTokenRequest creds.clientID creds.clientSecret clock)⟩
      | .reply resp =>
        if resp.error != "" then
          ⟨httpError resp.error 400, cache,
            some (NewTokenRequest creds.clientID creds.clientSecret clock)⟩
        else
          ⟨⟨200, .jsonObject [("access_token", resp.accessToken),
             ("token_type", resp.tokenType), ("source", "idp")]⟩,
           if !(v == "1" || v == "true") then
             TokenCache.Set cache now creds.clientID resp.accessToken defaultTokenTTL
           else cache,
           some (NewTokenRequest creds.clientID creds.clientSecret clock)⟩ := by
  unfold handleTokenRequest
  simp [hid, hsec, hcond]
  intro h1 h2 h3
  simp [h1, h2, h3] at hcond

/-- Reduction of the handler on a POST request answered from the cache. -/
lemma handle_cache_hit (v : String) (creds : ClientCredentialsRequest)
    (upstream : UpstreamResult) (cache : TokenCache) (now : Nat) (clock : Nat → Nat)
    (hid : (creds.clientID == "") = false) (hsec : (creds.clientSecret == "") = false)
    (hcond : (!(v == "1" || v == "true") && (TokenCache.Get cache now creds.clientID).2) = true) :
    handleTokenRequest "POST" v (.ok creds) upstream cache now clock =
      ⟨⟨200, .jsonObject [("access_token", (TokenCache.Get cache now creds.clientID).1),
         ("token_type", "Bearer"), ("source", "cache")]⟩, cache, none⟩ := by
  unfold handleTokenRequest
  simp [hid, hsec]
  intro h1
  simp at hcond
  obtain ⟨⟨hv1, hv2⟩, hhit⟩ := hcond
  exact absurd (h1 hv1 hv2) (by simp [hhit])

end NatsGo

/-- C2: on a POST request that reaches the bridge (credentials present,
cache skipped or missed), a timeout maps to 504, transport failure and
both serialization failures map to 500, and a reply with a populated
Error field maps to 400 carrying the rejection message; in every one of
these failure cases the cache is unchanged. -/
theorem c2_error_mapping (v : String) (creds : ClientCredentialsRequest)
    (cache : TokenCache) (now : Nat) (clock : Nat → Nat) (resp : TokenResponse)
    (hid : (creds.clientID == "") = false) (hsec : (creds.clientSecret == "") = false)
    (hmiss : (!(v == "1" || v == "true") && (TokenCache.Get cache now creds.clientID).2) = false)
    (herr : resp.error ≠ "") :
    ((handleTokenRequest "POST" v (.ok creds) .timeout cache now clock).response.status = 504 ∧
     (handleTokenRequest "POST" v (.ok creds) .timeout cache now clock).cache = cache) ∧
    ((handleTokenRequest "POST" v (.ok creds) .sendFailure cache now clock).response.status = 500 ∧
     (handleTokenRequest "POST" v (.ok creds) .sendFailure cache now clock).cache = cache) ∧
    ((handleTokenRequest "POST" v (.ok creds) .marshalFailure cache now clock).response.status = 500 ∧
     (handleTokenRequest "POST" v (.ok creds) .marshalFailure cache now clock).cache = cache) ∧
    ((handleTokenRequest "POST" v (.ok creds) .parseFailure cache now clock).response.status = 500 ∧
     (handleTokenRequest "POST" v (.ok creds) .parseFailure cache now clock).cache = cache) ∧
    ((handleTokenRequest "POST" v (.ok creds) (.reply resp) cache now clock).response
        = httpError resp.error 400 ∧
     (handleTokenRequest "POST" v (.ok creds) (.reply resp) cache now clock).cache = cache) := by
  have ht := handle_bridge v creds .timeout cache now clock hid hsec hmiss
  have hs := handle_bridge v creds .sendFailure cache now clock hid hsec hmiss
  have hm := handle_bridge v creds .marshalFailure cache now clock hid hsec hmiss
  have hp := handle_bridge v creds .parseFailure cache now clock hid hsec hmiss
  have hr := handle_bridge v creds (.reply resp) cache now clock hid hsec hmiss
  rw [ht, hs, hm, hp, hr]
  simp [herr, httpError]

/-- C2 witness at concrete inputs: the timeout case yields 504. -/
theorem c2_error_mapping_witness :
    (handleTokenRequest "POST" "" (.ok ⟨"c1", "s1"⟩) .timeout TokenCache.empty 0
        (fun _ => 0)).response.status = 504 :=
  (c2_error_mapping "" ⟨"c1", "s1"⟩ TokenCache.empty 0 (fun _ => 0)
    ⟨"r", "", "", 0, "invalid_client", 0⟩ (by decide) (by decide) (by decide) (by decide)).1.1

/-- C3 counterexample: the handler sends a request with one RequestID, and
a delivered reply carrying a different RequestID is still processed as the
result of that call (200 with the reply's token); the code never compares
the reply's RequestID with the outbound one. -/
theorem c3_counterexample :
    (handleTokenRequest "POST" "" (.ok ⟨"c1", "s1"⟩)
        (.reply ⟨"mismatched-id", "tok-x", "Bearer", 3600, "", 0⟩)
        TokenCache.empty 0 (fun _ => 0)).sent
      = some (NewTokenRequest "c1" "s1" (fun _ => 0)) ∧
    "mismatched-id" ≠ (NewTokenRequest "c1" "s1" (fun _ => 0)).requestID ∧
    (handleTokenRequest "POST" "" (.ok ⟨"c1", "s1"⟩)
        (.reply ⟨"mismatched-id", "tok-x", "Bearer", 3600, "", 0⟩)
        TokenCache.empty 0 (fun _ => 0)).response
      = ⟨200, .jsonObject [("access_token", "tok-x"), ("token_type", "Bearer"),
         ("source", "idp")]⟩ := by decide

/-- C3 amended: the handler's outcome is entirely independent of the
RequestID field of the delivered reply — correlation is performed by the
transport's reply addressing (one reply per `natsConn.Request` call), not
by comparing RequestID. -/
theorem c3_reply_requestID_ignored (method v : String) (parse : ParseResult)
    (resp : TokenResponse) (rid : String) (cache : TokenCache) (now : Nat)
    (clock : Nat → Nat) :
    handleTokenRequest method v parse (.reply { resp with requestID := rid }) cache now clock
      = handleTokenRequest method v parse (.reply resp) cache now clock := rfl

/-- C4: with an empty-miss cache and a worker reply with token_type Bearer
and no error, the first request is answered 200 from the idp and an
immediately following identical request is answered 200 from the cache
with the same access token. -/
theorem c4_idp_then_cache (creds : ClientCredentialsRequest) (cache : TokenCache)
    (now now2 : Nat) (clock clock2 : Nat → Nat) (resp : TokenResponse) (u2 : UpstreamResult)
    (hid : (creds.clientID == "") = false) (hsec : (creds.clientSecret == "") = false)
    (hmiss : (TokenCache.Get cache now creds.clientID).2 = false)
    (herr : resp.error = "") (htt : resp.tokenType = "Bearer")
    (h2 : now2 ≤ now + defaultTokenTTL) :
    (handleTokenRequest "POST" "" (.ok creds) (.reply resp) cache now clock).response
      = ⟨200, .jsonObject [("access_token", resp.accessToken), ("token_type", "Bearer"),
         ("source", "idp")]⟩ ∧
    (handleTokenRequest "POST" "" (.ok creds) u2
        (handleTokenRequest "POST" "" (.ok creds) (.reply resp) cache now clock).cache
        now2 clock2).response
      = ⟨200, .jsonObject [("access_token", resp.accessToken), ("token_type", "Bearer"),
         ("source", "cache")]⟩ := by
  have hmiss' : (!(("" == "1") || ("" == "true"))
      && (TokenCache.Get cache now creds.clientID).2) = false := by
    simp [hmiss]
  have h1 := handle_bridge "" creds (.reply resp) cache now clock hid hsec hmiss'
  have hget : TokenCache.Get
      (TokenCache.Set cache now creds.clientID resp.accessToken defaultTokenTTL)
      now2 creds.clientID = (resp.accessToken, true) :=
    Get_Set_self cache now defaultTokenTTL now2 creds.clientID resp.accessToken h2
  have hhit : (!(("" == "1") || ("" == "true"))
      && (TokenCache.Get
        (TokenCache.Set cache now creds.clientID resp.accessToken defaultTokenTTL)
        now2 creds.clientID).2) = true := by
    simp [hget]
  have h3 := handle_cache_hit "" creds u2
    (TokenCache.Set cache now creds.clientID resp.accessToken defaultTokenTTL)
    now2 clock2 hid hsec hhit
  constructor
  · rw [h1]
    simp [herr, htt]
  · rw [h1]
    simp only [herr]
    simp
    rw [h3]
    simp [hget]

/-- C4 witness at the spec's scenario-1 inputs. -/
theorem c4_idp_then_cache_witness :
    (handleTokenRequest "POST" "" (.ok ⟨"c1", "s1"⟩) .timeout
        (handleTokenRequest "POST" "" (.ok ⟨"c1", "s1"⟩)
          (.reply ⟨"r", "tok-abc", "Bearer", 3600, "", 0⟩)
          TokenCache.empty 0 (fun _ => 0)).cache
        0 (fun _ => 0)).response
      = ⟨200, .jsonObject [("access_token", "tok-abc"), ("token_type", "Bearer"),
         ("source", "cache")]⟩ :=
  (c4_idp_then_cache ⟨"c1", "s1"⟩ TokenCache.empty 0 0 (fun _ => 0) (fun _ => 0)
    ⟨"r", "tok-abc", "Bearer", 3600, "", 0⟩ .timeout
    (by decide) (by decide) (by decide) rfl rfl (by decide)).2

/-- C5: evaluating the ID generator at the failing input — two consecutive
`NewTokenRequest` calls during which every `time.Now()` reading returns
the same instant — produces the same RequestID for both calls, because
`generateID` (via `randomString`, which indexes the charset by
`time.Now().UnixNano()` rather than a random source) is a deterministic
function of the clock readings. -/
theorem c5_requestID_collision :
    (twoConsecutiveRequestIDs "c1" "s1" (fun _ => 0)).1
      = (twoConsecutiveRequestIDs "c1" "s1" (fun _ => 0)).2 ∧
    (twoConsecutiveRequestIDs "c1" "s1" (fun _ => 0)).1 = "0-aaaaaaaa" := by decide

/-- C6: with `skip_cache=1` or `skip_cache=true`, the handler leaves the
cache exactly as it was, its response is independent of the cache
contents (the cache is never consulted), and a successful response
carries source idp. -/
theorem c6_skip_cache (v : String) (hv : v = "1" ∨ v = "true") :
    (∀ (parse : ParseResult) (upstream : UpstreamResult) (cache : TokenCache)
       (now : Nat) (clock : Nat → Nat),
      (handleTokenRequest "POST" v parse upstream cache now clock).cache = cache) ∧
    (∀ (parse : ParseResult) (upstream : UpstreamResult) (cache cache' : TokenCache)
       (now : Nat) (clock : Nat → Nat),
      (handleTokenRequest "POST" v parse upstream cache now clock).response
        = (handleTokenRequest "POST" v parse upstream cache' now clock).response) ∧
    (∀ (creds : ClientCredentialsRequest) (resp : TokenResponse) (cache : TokenCache)
       (now : Nat) (clock : Nat → Nat),
      (creds.clientID == "") = false → (creds.clientSecret == "") = false →
      resp.error = "" →
      (handleTokenRequest "POST" v (.ok creds) (.reply resp) cache now clock).response
        = ⟨200, .jsonObject [("access_token", resp.accessToken),
           ("token_type", resp.tokenType), ("source", "idp")]⟩) := by
  have hskip : (v == "1" || v == "true") = true := by
    rcases hv with h | h <;> simp [h]
  refine ⟨?_, ?_, ?_⟩
  · intro parse upstream cache now clock
    cases parse with
    | readError => rfl
    | malformed => rfl
    | ok creds =>
      cases hid : (creds.clientID == "") with
      | true =>
        unfold handleTokenRequest
        simp [hid]
      | false =>
        cases hsec : (creds.clientSecret == "") with
        | true =>
          unfold handleTokenRequest
          simp [hsec]
        | false =>
          rw [handle_bridge v creds upstream cache now clock hid hsec (by simp [hskip])]
          cases upstream <;> simp [hskip]
          split <;> rfl
  · intro parse upstream cache cache' now clock
    cases parse with
    | readError => rfl
    | malformed => rfl
    | ok creds =>
      cases hid : (creds.clientID == "") with
      | true =>
        unfold handleTokenRequest
        simp [hid]
      | false =>
        cases hsec : (creds.clientSecret == "") with
        | true =>
          unfold handleTokenRequest
          simp [hsec]
        | false =>
          rw [handle_bridge v creds upstream cache now clock hid hsec (by simp [hskip]),
            handle_bridge v creds upstream cache' now clock hid hsec (by simp [hskip])]
          cases upstream <;> simp [hskip]
          split <;> rfl
  · intro creds resp cache now clock hid hsec herr
    rw [handle_bridge v creds (.reply resp) cache now clock hid hsec (by simp [hskip])]
    simp [herr]

/-- C6 witness: a skip_cache request that succeeds upstream leaves an
empty cache empty. -/
theorem c6_skip_cache_witness :
    (handleTokenRequest "POST" "1" (.ok ⟨"c1", "s1"⟩)
        (.reply ⟨"r", "tok", "Bearer", 3600, "", 0⟩)
        TokenCache.empty 0 (fun _ => 0)).cache = TokenCache.empty :=
  (c6_skip_cache "1" (Or.inl rfl)).1 _ _ _ _ _

/-- C8 counterexample: the 400 answer to a malformed body is the
plain-text line written by `http.Error`, not a JSON object with an error
field. -/
theorem c8_counterexample :
    (handleTokenRequest "POST" "" .malformed .timeout TokenCache.empty 0
        (fun _ => 0)).response.status = 400 ∧
    ¬ specJsonErrorBody (handleTokenRequest "POST" "" .malformed .timeout
        TokenCache.empty 0 (fun _ => 0)).response.body := by
  refine ⟨rfl, ?_⟩
  rintro ⟨e, h⟩
  have hb : (handleTokenRequest "POST" "" .malformed .timeout TokenCache.empty 0
      (fun _ => 0)).response.body = .plainText ("Invalid request format" ++ "\n") := rfl
  rw [hb] at h
  exact Body.noConfusion h

/-- C8 amended: every 400 response of the handler has a plain-text body
consisting of an error message followed by a newline, the message being
one of the two body-decode errors, the missing-credentials message, or
the upstream reply's Error string. -/
theorem c8_plaintext_400 (method v : String) (parse : ParseResult)
    (upstream : UpstreamResult) (cache : TokenCache) (now : Nat) (clock : Nat → Nat)
    (h400 : (handleTokenRequest method v parse upstream cache now clock).response.status = 400) :
    ∃ msg : String,
      (handleTokenRequest method v parse upstream cache now clock).response.body
        = .plainText (msg ++ "\n") ∧
      (msg = "Failed to read request body" ∨ msg = "Invalid request format" ∨
       msg = "Client ID and Client Secret are required" ∨
       ∃ resp : TokenResponse, upstream = .reply resp ∧ msg = resp.error) := by
  revert h400
  cases parse with
  | readError =>
    unfold handleTokenRequest
    split
    · intro h
      exact absurd h (by simp [httpError])
    · intro h
      exact ⟨"Failed to read request body", rfl, Or.inl rfl⟩
  | malformed =>
    unfold handleTokenRequest
    split
    · intro h
      exact absurd h (by simp [httpError])
    · intro h
      exact ⟨"Invalid request format", rfl, Or.inr (Or.inl rfl)⟩
  | ok creds =>
    unfold handleTokenRequest
    split
    · intro h
      exact absurd h (by simp [httpError])
    · dsimp only
      split
      · intro h
        exact ⟨"Client ID and Client Secret are required", rfl,
          Or.inr (Or.inr (Or.inl rfl))⟩
      · split
        · intro h
          exact absurd h (by simp)
        · cases upstream with
          | marshalFailure =>
            dsimp only
            intro h
            exact absurd h (by simp [httpError])
          | timeout =>
            dsimp only
            intro h
            exact absurd h (by simp [httpError])
          | sendFailure =>
            dsimp only
            intro h
            exact absurd h (by simp [httpError])
          | parseFailure =>
            dsimp only
            intro h
            exact absurd h (by simp [httpError])
          | reply resp =>
            dsimp only
            split
            · intro h
              exact ⟨resp.error, rfl, Or.inr (Or.inr (Or.inr ⟨resp, rfl, rfl⟩))⟩
            · intro h
              exact absurd h (by simp)

/-- C8 witness: applying the amended statement at a malformed request. -/
theorem c8_plaintext_400_witness :
    ∃ msg : String,
      (handleTokenRequest "POST" "" .malformed .timeout TokenCache.empty 0
          (fun _ => 0)).response.body = .plainText (msg ++ "\n") ∧
      (msg = "Failed to read request body" ∨ msg = "Invalid request format" ∨
       msg = "Client ID and Client Secret are required" ∨
       ∃ resp : TokenResponse, UpstreamResult.timeout = .reply resp ∧ msg = resp.error) :=
  c8_plaintext_400 "POST" "" .malformed .timeout TokenCache.empty 0 (fun _ => 0) rfl

/-- C10: populating the cache from a worker reply stores only the access
token (the entry is exactly token plus expiration, discarding TokenType
and ExpiresIn), so a subsequent cache-hit response reports the literal
token_type Bearer independently of the reply's TokenType. -/
theorem c10_cache_hit_bearer (creds : ClientCredentialsRequest) (cache : TokenCache)
    (now now2 : Nat) (clock clock2 : Nat → Nat) (resp : TokenResponse) (u2 : UpstreamResult)
    (hid : (creds.clientID == "") = false) (hsec : (creds.clientSecret == "") = false)
    (hmiss : (TokenCache.Get cache now creds.clientID).2 = false)
    (herr : resp.error = "") (h2 : now2 ≤ now + defaultTokenTTL) :
    ((handleTokenRequest "POST" "" (.ok creds) (.reply resp) cache now clock).cache
        creds.clientID = some ⟨resp.accessToken, now + defaultTokenTTL⟩) ∧
    ((handleTokenRequest "POST" "" (.ok creds) u2
        (handleTokenRequest "POST" "" (.ok creds) (.reply resp) cache now clock).cache
        now2 clock2).response
      = ⟨200, .jsonObject [("access_token", resp.accessToken), ("token_type", "Bearer"),
         ("source", "cache")]⟩) := by
  have hmiss' : (!(("" == "1") || ("" == "true"))
      && (TokenCache.Get cache now creds.clientID).2) = false := by
    simp [hmiss]
  have h1 := handle_bridge "" creds (.reply resp) cache now clock hid hsec hmiss'
  have hget : TokenCache.Get
      (TokenCache.Set cache now creds.clientID resp.accessToken defaultTokenTTL)
      now2 creds.clientID = (resp.accessToken, true) :=
    Get_Set_self cache now defaultTokenTTL now2 creds.clientID resp.accessToken h2
  have hhit : (!(("" == "1") || ("" == "true"))
      && (TokenCache.Get
        (TokenCache.Set cache now creds.clientID resp.accessToken defaultTokenTTL)
        now2 creds.clientID).2) = true := by
    simp [hget]
  have h3 := handle_cache_hit "" creds u2
    (TokenCache.Set cache now creds.clientID resp.accessToken defaultTokenTTL)
    now2 clock2 hid hsec hhit
  constructor
  · rw [h1]
    simp [herr, TokenCache.Set]
  · rw [h1]
    simp only [herr]
    simp
    rw [h3]
    simp [hget]

/-- C10 witness: a reply whose TokenType is MAC still yields a cache-hit
response with token_type Bearer. -/
theorem c10_cache_hit_bearer_witness :
    (handleTokenRequest "POST" "" (.ok ⟨"c1", "s1"⟩) .timeout
        (handleTokenRequest "POST" "" (.ok ⟨"c1", "s1"⟩)
          (.reply ⟨"r", "tok", "MAC", 3600, "", 0⟩)
          TokenCache.empty 0 (fun _ => 0)).cache
        0 (fun _ => 0)).response
      = ⟨200, .jsonObject [("access_token", "tok"), ("token_type", "Bearer"),
         ("source", "cache")]⟩ :=
  (c10_cache_hit_bearer ⟨"c1", "s1"⟩ TokenCache.empty 0 0 (fun _ => 0) (fun _ => 0)
    ⟨"r", "tok", "MAC", 3600, "", 0⟩ .timeout
    (by decide) (by decide) (by decide) rfl (by decide)).2
